import Mathlib

/-!
Verification development for the auditorium-control web client
(dashboard.js, login.js, admin.js of romulopalacios/web-server-auditorio).

The client-side handlers are embedded shallowly: each `async function`
becomes a pure Lean function from its inputs (current UI state, the global
`btnActual` reference, form fields, the confirmation answer) and the
outcome of its single `fetch` call to the final UI state it leaves behind.
A `fetch` outcome is either a network/parse failure (the `catch` path) or
an HTTP status code together with the parsed JSON body.
-/

namespace Auditorio

/-- Fields of `data.estado` returned by the server
(`modo_actual`, `carga_cpu`, `latencia`). -/
structure Estado where
  modo_actual : String
  carga_cpu : Int
  latencia : Int
deriving Repr, DecidableEq

/-- The dashboard's displayed state: the text contents of the elements
`modo-val`, `cpu-val`, `latencia-val` and the `className` of `kpi-estado`. -/
structure Display where
  modo : String
  cpu : Int
  latencia : Int
  kpiClass : String
deriving Repr, DecidableEq

/-- A notification element created by `mostrarNotificacion`:
its text content and its type (the second class of
`notificacion ${tipo}`). -/
structure Notif where
  mensaje : String
  tipo : String
deriving Repr, DecidableEq

/-- Outcome of one `fetch` call, as observed by the handler:
`fail` is the `catch` path (the fetch or `res.json()` threw),
`ok st body` is an HTTP response with status code `st` and parsed body. -/
inductive FetchResult (α : Type) where
  | fail : FetchResult α
  | ok : Nat → α → FetchResult α
deriving Repr, DecidableEq

/-- JS `res.ok`: HTTP status in the range 200-299. -/
def resOk (st : Nat) : Bool :=
  decide (200 ≤ st) && decide (st < 300)

/-- Class of `kpi-estado` after `actualizarUI`: the code resets
`className` to `kpi` and then adds `status-off` for mode OFF,
`status-standby` for STANDBY, `status-on` otherwise. -/
def claseKpi (modo : String) : String :=
  if modo = "OFF" then "kpi status-off"
  else if modo = "STANDBY" then "kpi status-standby"
  else "kpi status-on"

/-- `actualizarUI(estado)`: writes `modo_actual`, `carga_cpu`, `latencia`
into the three value elements and recomputes the kpi class. -/
def actualizarUI (estado : Estado) : Display :=
  ⟨estado.modo_actual, estado.carga_cpu, estado.latencia,
    claseKpi estado.modo_actual⟩

/-- Parsed JSON body of a `/api/cambiar_modo` response:
`status`, optional `estado`, and `msg`. `estado` is optional because the
handlers read it only on the success branch; a missing `estado` there makes
`actualizarUI` throw inside the `try`, which the `catch` turns into the
connection-error notice. -/
structure ModoBody where
  status : String
  estado : Option Estado
  msg : String
deriving Repr, DecidableEq

/-- Request body posted to `/api/cambiar_modo`: `{modo}` from
`enviarComando`, `{modo, confirmado: true}` from `confirmarApagadoFinal`. -/
structure CambiarModoRequest where
  modo : String
  confirmado : Option Bool
deriving Repr, DecidableEq

/-- Final state of the triggering button: its `disabled` flag and
`innerHTML`. -/
structure BtnState where
  disabled : Bool
  label : String
deriving Repr, DecidableEq

/-- Everything `enviarComando` leaves behind after it settles:
the displayed state, the notification it showed, the final button state,
whether it re-fetched the logs, and the request it issued. -/
structure DispatchResult where
  display : Display
  notif : Option Notif
  btn : BtnState
  recargoLogs : Bool
  request : CambiarModoRequest
deriving Repr, DecidableEq

/-- `enviarComando(modo, btn)`: disables the button, saves
`textoOriginal`, posts `{modo}`, then branches on `res.status === 429`
first, then on `data.status` (`success` updates the UI via `actualizarUI`
and reloads the logs, `info` and the fallback only notify); the `catch`
shows the connection-error notice; the `finally` unconditionally restores
`disabled = false` and `innerHTML = textoOriginal`. -/
def enviarComando (modo : String) (textoOriginal : String) (d : Display)
    (resp : FetchResult ModoBody) : DispatchResult :=
  let req : CambiarModoRequest := ⟨modo, none⟩
  match resp with
  | .fail =>
      ⟨d, some ⟨"Error de conexión con el servidor", "error"⟩,
        ⟨false, textoOriginal⟩, false, req⟩
  | .ok st body =>
      if st = 429 then
        ⟨d, some ⟨"Demasiadas solicitudes. Espere un momento.", "error"⟩,
          ⟨false, textoOriginal⟩, false, req⟩
      else if body.status = "success" then
        match body.estado with
        | some e =>
            ⟨actualizarUI e, some ⟨body.msg, "success"⟩,
              ⟨false, textoOriginal⟩, true, req⟩
        | none =>
            ⟨d, some ⟨"Error de conexión con el servidor", "error"⟩,
              ⟨false, textoOriginal⟩, false, req⟩
      else if body.status = "info" then
        ⟨d, some ⟨body.msg, "info"⟩, ⟨false, textoOriginal⟩, false, req⟩
      else
        ⟨d, some ⟨body.msg, "error"⟩, ⟨false, textoOriginal⟩, false, req⟩

/-- Everything `confirmarApagadoFinal` leaves behind: whether the modal is
still open, the global `btnActual` after the call, the request it sent (if
any), the recorded button's final state (if one was recorded), the
displayed state, the notification, and whether logs were reloaded. -/
structure ApagadoResult where
  modalOpen : Bool
  btnActualFinal : Option String
  request : Option CambiarModoRequest
  btn : Option BtnState
  display : Display
  notif : Option Notif
  recargoLogs : Bool
deriving Repr, DecidableEq

/-- JS dereference of the nullable global `btnActual`: throws a TypeError
when it is null. -/
def derefBtn : Option String → Except String String
  | none => .error "TypeError: btnActual is null"
  | some l => .ok l

/-- `confirmarApagadoFinal()`: guards on `!btnActual` (close the modal and
return), otherwise saves the button, closes the modal (`cerrarModal` also
nulls `btnActual`), disables the button, posts
`{modo: OFF, confirmado: true}`, and branches only on `data.status`
(`success` updates the UI and reloads logs; anything else shows
`data.msg` as an error notice — there is no HTTP-429 branch here); the
`catch` shows the connection-error notice; the `finally` restores the
button. The `Except` layer records a thrown TypeError escaping the
function, which the initial guard is meant to prevent. -/
def confirmarApagadoFinal (btnActual : Option String) (d : Display)
    (resp : FetchResult ModoBody) : Except String ApagadoResult :=
  if btnActual.isNone then
    .ok ⟨false, none, none, none, d, none, false⟩
  else
    match derefBtn btnActual with
    | .error e => .error e
    | .ok textoOriginal =>
    let req : CambiarModoRequest := ⟨"OFF", some true⟩
    match resp with
    | .fail =>
        .ok ⟨false, none, some req, some ⟨false, textoOriginal⟩, d,
          some ⟨"Error de conexión", "error"⟩, false⟩
    | .ok _st body =>
        if body.status = "success" then
          match body.estado with
          | some e =>
              .ok ⟨false, none, some req, some ⟨false, textoOriginal⟩,
                actualizarUI e,
                some ⟨"Sistema apagado correctamente", "success"⟩, true⟩
          | none =>
              .ok ⟨false, none, some req, some ⟨false, textoOriginal⟩, d,
                some ⟨"Error de conexión", "error"⟩, false⟩
        else
          .ok ⟨false, none, some req, some ⟨false, textoOriginal⟩, d,
            some ⟨body.msg, "error"⟩, false⟩

/-- Parsed JSON body of a `GET /api/estado` response. -/
structure EstadoBody where
  status : String
  estado : Option Estado
deriving Repr, DecidableEq

/-- `cargarEstadoActual()`: throws on `!res.ok` (caught as the load-error
notice), updates the UI via `actualizarUI` only when `data.status` is
`success`, and does nothing on any other body status. -/
def cargarEstadoActual (d : Display) (resp : FetchResult EstadoBody) :
    Display × Option Notif :=
  match resp with
  | .fail => (d, some ⟨"Error al cargar estado del sistema", "error"⟩)
  | .ok st body =>
      if resOk st = false then
        (d, some ⟨"Error al cargar estado del sistema", "error"⟩)
      else if body.status = "success" then
        match body.estado with
        | some e => (actualizarUI e, none)
        | none => (d, some ⟨"Error al cargar estado del sistema", "error"⟩)
      else (d, none)

/-- One entry of `data.logs` from `GET /api/historial`. `nivel` is optional
because the renderer defaults it (`log.nivel || 'INFO'`); an empty string is
falsy in JS and also defaults. -/
structure LogEntry where
  fecha : String
  nivel : Option String
  usuario : String
  evento : String
  detalle : String
deriving Repr, DecidableEq

/-- Parsed JSON body of a `GET /api/historial` response. -/
structure LogsBody where
  status : String
  logs : List LogEntry
deriving Repr, DecidableEq

/-- One rendered `log-row` div: its class list and its text. -/
structure LogRow where
  clase : String
  texto : String
deriving Repr, DecidableEq

/-- The `log-box` element: its rendered rows in document order and its
`scrollTop`. -/
structure LogBox where
  rows : List LogRow
  scrollTop : Nat
deriving Repr, DecidableEq

/-- The level used for styling: `log.nivel || 'INFO'` (JS `||` takes the
default when `nivel` is absent or the empty string). -/
def nivelEfectivo (log : LogEntry) : String :=
  match log.nivel with
  | none => "INFO"
  | some s => if s = "" then "INFO" else s

/-- Rendering of one log entry into a `log-row ${nivel}` div with text
`[fecha] [nivel] usuario: evento - detalle`. -/
def renderLogRow (log : LogEntry) : LogRow :=
  ⟨"log-row " ++ nivelEfectivo log,
    "[" ++ log.fecha ++ "] [" ++ nivelEfectivo log ++ "] " ++ log.usuario
      ++ ": " ++ log.evento ++ " - " ++ log.detalle⟩

/-- `cargarLogs()`: throws on `!res.ok` (caught, logged to the console
only), returns early when `data.status` is not `success`, and only then
clears `log-box`, appends one row per entry in the order the server
returned them, and resets `scrollTop` to 0. Every failure path leaves the
box untouched. -/
def cargarLogs (caja : LogBox) (resp : FetchResult LogsBody) : LogBox :=
  match resp with
  | .fail => caja
  | .ok st body =>
      if resOk st = false then caja
      else if body.status ≠ "success" then caja
      else ⟨body.logs.map renderLogRow, 0⟩

/-- `mostrarNotificacion(mensaje, tipo)` acting on the list of
`.notificacion` elements of the document in order: it removes the first
existing one (`querySelector` + `remove`) and then appends the new one to
`document.body`. -/
def mostrarNotificacion (mensaje tipo : String) (notifs : List Notif) :
    List Notif :=
  (match notifs with
   | [] => []
   | _ :: rest => rest) ++ [⟨mensaje, tipo⟩]

/-- Fields of the admin user form (`form-usuario`). `id` is the hidden
`usuario-id` input, the empty string when creating. -/
structure UsuarioForm where
  id : String
  username : String
  password : String
  nombre_completo : String
  email : String
  rol : String
deriving Repr, DecidableEq

/-- Request body `guardarUsuario` posts to `POST /api/admin/usuarios`:
exactly the five fields it puts into `datos`. -/
structure UsuarioUpsertRequest where
  username : String
  password : String
  nombre_completo : String
  email : String
  rol : String
deriving Repr, DecidableEq

/-- Parsed JSON body of an admin endpoint response: `status` plus the
optional `error` message used in the alert fallbacks. -/
structure AdminBody where
  status : String
  error : Option String
deriving Repr, DecidableEq

/-- Outcome of `guardarUsuario`: the request body it posted, the alert it
showed, whether it closed the modal, and whether it reloaded the user list
and statistics. -/
structure GuardarResult where
  request : UsuarioUpsertRequest
  alerta : Option String
  modalCerrado : Bool
  recargas : Bool
deriving Repr, DecidableEq

/-- `guardarUsuario(event)`: reads `usuario-id` into `userId`, builds
`datos` from the five other form fields (`userId` is never placed into
`datos`), posts `datos`, and on success alerts, closes the modal and
reloads; otherwise alerts the error. -/
def guardarUsuario (f : UsuarioForm) (resp : FetchResult AdminBody) :
    GuardarResult :=
  let _userId := f.id
  let datos : UsuarioUpsertRequest :=
    ⟨f.username, f.password, f.nombre_completo, f.email, f.rol⟩
  match resp with
  | .fail => ⟨datos, some "Error de conexión", false, false⟩
  | .ok _st body =>
      if body.status = "success" then
        ⟨datos, some "Usuario guardado correctamente", true, true⟩
      else
        ⟨datos, some ("Error: " ++ body.error.getD "Error desconocido"),
          false, false⟩

/-- A request issued by the destructive admin actions:
`DELETE /api/admin/usuarios/:id` or `POST /api/admin/logs/limpiar {dias}`. -/
inductive AdminRequest where
  | deleteUsuario : Nat → AdminRequest
  | limpiarLogs : Int → AdminRequest
deriving Repr, DecidableEq

/-- Outcome of a destructive admin action: the request it sent (none when
the confirm prompt was declined), the alert shown, and whether it
reloaded/refreshed afterwards. -/
structure DestructiveResult where
  request : Option AdminRequest
  alerta : Option String
  recargas : Bool
deriving Repr, DecidableEq

/-- `confirmarEliminarUsuario(userId)`: returns immediately when the
`confirm` prompt is declined; otherwise sends the DELETE and branches on
`data.status`. -/
def confirmarEliminarUsuario (userId : Nat) (confirmado : Bool)
    (resp : FetchResult AdminBody) : DestructiveResult :=
  if confirmado = false then ⟨none, none, false⟩
  else
    match resp with
    | .fail => ⟨some (.deleteUsuario userId), some "Error de conexión", false⟩
    | .ok _st body =>
        if body.status = "success" then
          ⟨some (.deleteUsuario userId),
            some "Usuario desactivado correctamente", true⟩
        else
          ⟨some (.deleteUsuario userId),
            some ("Error: " ++ body.error.getD "Error desconocido"), false⟩

/-- Parsed JSON body of a `POST /api/admin/logs/limpiar` response. -/
structure LimpiarBody where
  status : String
  eliminados : Int
  error : Option String
deriving Repr, DecidableEq

/-- `ejecutarLimpiezaLogs()`: reads `dias-mantener`, returns immediately
when the `confirm` prompt is declined; otherwise posts
`{dias: parseInt(dias)}` and branches on `data.status` (success alerts the
removed count, closes the modal and refreshes statistics). -/
def ejecutarLimpiezaLogs (dias : Int) (confirmado : Bool)
    (resp : FetchResult LimpiarBody) : DestructiveResult :=
  if confirmado = false then ⟨none, none, false⟩
  else
    match resp with
    | .fail => ⟨some (.limpiarLogs dias), some "Error de conexión", false⟩
    | .ok _st body =>
        if body.status = "success" then
          ⟨some (.limpiarLogs dias),
            some ("Limpieza completada. " ++ toString body.eliminados
              ++ " registros eliminados"), true⟩
        else
          ⟨some (.limpiarLogs dias),
            some ("Error: " ++ body.error.getD "Error desconocido"), false⟩

/-! Helper lemmas shared by the claim theorems. -/

/-- The initial display used as a concrete starting point in witnesses and
counterexamples (the CONFERENCIA row of the README's mode table). -/
def d0 : Display := ⟨"CONFERENCIA", 45, 12, "kpi status-on"⟩

theorem enviarComando_btn (modo t : String) (d : Display)
    (resp : FetchResult ModoBody) :
    (enviarComando modo t d resp).btn = ⟨false, t⟩ := by
  cases resp with
  | fail => rfl
  | ok st body =>
      simp only [enviarComando]
      split_ifs <;> first | rfl | (cases body.estado <;> rfl)

theorem confirmarApagadoFinal_btn (l : String) (d : Display)
    (resp : FetchResult ModoBody) :
    (confirmarApagadoFinal (some l) d resp).map ApagadoResult.btn
      = .ok (some ⟨false, l⟩) := by
  cases resp with
  | fail => rfl
  | ok st body =>
      by_cases hs : body.status = "success"
      · cases he : body.estado <;>
          simp [confirmarApagadoFinal, derefBtn, hs, he, Except.map]
      · simp [confirmarApagadoFinal, derefBtn, hs, Except.map]

theorem guardarUsuario_request (f : UsuarioForm)
    (resp : FetchResult AdminBody) :
    (guardarUsuario f resp).request
      = ⟨f.username, f.password, f.nombre_completo, f.email, f.rol⟩ := by
  cases resp with
  | fail => rfl
  | ok st body =>
      simp only [guardarUsuario]
      split_ifs <;> rfl

theorem mostrarNotificacion_singleton (m t : String) (ns : List Notif)
    (h : ns.length ≤ 1) : mostrarNotificacion m t ns = [⟨m, t⟩] := by
  cases ns with
  | nil => rfl
  | cons a rest =>
      cases rest with
      | nil => rfl
      | cons b r => simp at h

theorem mostrarNotificacion_fold_inv (calls : List (String × String)) :
    ∀ ns : List Notif, ns.length ≤ 1 →
      (calls.foldl (fun acc p => mostrarNotificacion p.1 p.2 acc) ns).length
        ≤ 1 := by
  induction calls with
  | nil => intro ns h; simpa using h
  | cons c cs ih =>
      intro ns h
      simp only [List.foldl]
      exact ih _ (by rw [mostrarNotificacion_singleton c.1 c.2 ns h]; simp)

/-! Claim theorems. -/

/-- Claim C3: after either mode-change dispatch settles — on the success,
info, error and network-failure paths alike — the triggering control is
re-enabled and its label equals the saved original label, because the
`finally` blocks of `enviarComando` and `confirmarApagadoFinal` restore it
unconditionally. -/
theorem C3_boton_restaurado (modo t l : String) (d d2 : Display)
    (resp resp2 : FetchResult ModoBody) :
    (enviarComando modo t d resp).btn = ⟨false, t⟩
    ∧ (confirmarApagadoFinal (some l) d2 resp2).map ApagadoResult.btn
        = .ok (some ⟨false, l⟩) :=
  ⟨enviarComando_btn modo t d resp, confirmarApagadoFinal_btn l d2 resp2⟩

/-- Claim C5: when the OFF confirmation fires with no pending control
recorded (`btnActual` null), `confirmarApagadoFinal` does not throw, sends
no request, closes the modal, and changes nothing else. -/
theorem C5_confirmar_sin_boton (d : Display) (resp : FetchResult ModoBody) :
    confirmarApagadoFinal none d resp
      = .ok ⟨false, none, none, none, d, none, false⟩ := rfl

/-- Claim C8: the destructive admin actions send their request exactly when
the `confirm` prompt is accepted: declining sends nothing, accepting sends
the DELETE (respectively cleanup POST). -/
theorem C8_confirmacion_destructiva (userId : Nat) (dias : Int) (c : Bool)
    (resp : FetchResult AdminBody) (resp2 : FetchResult LimpiarBody) :
    (confirmarEliminarUsuario userId c resp).request
        = (if c then some (.deleteUsuario userId) else none)
    ∧ (ejecutarLimpiezaLogs dias c resp2).request
        = (if c then some (.limpiarLogs dias) else none) := by
  constructor
  · cases c with
    | false => rfl
    | true =>
        cases resp with
        | fail => simp [confirmarEliminarUsuario]
        | ok st body =>
            by_cases hs : body.status = "success" <;>
              simp [confirmarEliminarUsuario, hs]
  · cases c with
    | false => rfl
    | true =>
        cases resp2 with
        | fail => simp [ejecutarLimpiezaLogs]
        | ok st body =>
            by_cases hs : body.status = "success" <;>
              simp [ejecutarLimpiezaLogs, hs]

/-- Claim C2 (code bug): the request body `guardarUsuario` posts never
contains the form's id — `userId` is read but not placed into `datos` — so
the request is identical whether the id field is filled (an edit of user 5)
or empty (a create), and the server cannot key an update on it. -/
theorem C2_id_ignorado :
    (∀ (f : UsuarioForm) (i j : String) (resp : FetchResult AdminBody),
      (guardarUsuario { f with id := i } resp).request
        = (guardarUsuario { f with id := j } resp).request)
    ∧ (guardarUsuario ⟨"5", "alice", "pw", "Alice A", "a@mail.com",
          "operador"⟩ (.ok 200 ⟨"success", none⟩)).request
        = (guardarUsuario ⟨"", "alice", "pw", "Alice A", "a@mail.com",
          "operador"⟩ (.ok 200 ⟨"success", none⟩)).request := by
  constructor
  · intro f i j resp
    rw [guardarUsuario_request, guardarUsuario_request]
  · rfl

/-- Claim C1, counterexample: a 429 response to the confirmed OFF dispatch
does not show the rate-limit notice — `confirmarApagadoFinal` has no
`res.status === 429` branch, so a 429 with body
`{status: error, msg: Limite excedido}` shows the generic error notice
carrying the server message. -/
theorem C1_contraejemplo :
    (confirmarApagadoFinal (some "Apagar") d0
        (.ok 429 ⟨"error", none, "Limite excedido"⟩)).map ApagadoResult.notif
      = .ok (some ⟨"Limite excedido", "error"⟩)
    ∧ some (⟨"Limite excedido", "error"⟩ : Notif)
        ≠ some (⟨"Demasiadas solicitudes. Espere un momento.", "error"⟩ :
          Notif) := by
  exact ⟨rfl, by decide⟩

/-- Claim C1 as amended: a 429 response to the plain dispatch
(`enviarComando`) shows the rate-limit notice and leaves the displayed
state unchanged; the confirmed OFF dispatch (`confirmarApagadoFinal`) has
no 429 branch and dispatches on the body's status alone, so on a 429 whose
body status is not `success` it shows the generic error notice with the
server message and leaves the displayed state unchanged. -/
theorem C1_429_enmendado (modo t lbl : String) (d : Display)
    (body : ModoBody) (h : body.status ≠ "success") :
    ((enviarComando modo t d (.ok 429 body)).notif
        = some ⟨"Demasiadas solicitudes. Espere un momento.", "error"⟩
      ∧ (enviarComando modo t d (.ok 429 body)).display = d)
    ∧ (confirmarApagadoFinal (some lbl) d (.ok 429 body)).map
          (fun r => (r.notif, r.display))
        = .ok (some ⟨body.msg, "error"⟩, d) := by
  refine ⟨⟨rfl, rfl⟩, ?_⟩
  simp [confirmarApagadoFinal, derefBtn, h, Except.map]

/-- Claim C1 amended, witnessed at a concrete 429 response whose body is
`{status: error, msg: Limite excedido}`. -/
theorem C1_429_enmendado_witness :
    ((⟨"error", none, "Limite excedido"⟩ : ModoBody).status ≠ "success")
    ∧ (((enviarComando "CINE" "boton" d0
          (.ok 429 ⟨"error", none, "Limite excedido"⟩)).notif
        = some ⟨"Demasiadas solicitudes. Espere un momento.", "error"⟩
      ∧ (enviarComando "CINE" "boton" d0
          (.ok 429 ⟨"error", none, "Limite excedido"⟩)).display = d0)
    ∧ (confirmarApagadoFinal (some "Apagar") d0
          (.ok 429 ⟨"error", none, "Limite excedido"⟩)).map
          (fun r => (r.notif, r.display))
        = .ok (some ⟨"Limite excedido", "error"⟩, d0)) :=
  ⟨by decide,
    C1_429_enmendado "CINE" "boton" "Apagar" d0
      ⟨"error", none, "Limite excedido"⟩ (by decide)⟩

/-- The CINE state of the README's mode table, used as a concrete
server-returned state. -/
def e0 : Estado := ⟨"CINE", 88, 24⟩

/-- Claim C4, counterexample: a response with HTTP status 429 and body
status `success` does not update the displayed state — `enviarComando`
checks `res.status === 429` before the body status — refuting "updated if
and only if the body's status field is success". -/
theorem C4_contraejemplo :
    (enviarComando "CINE" "boton" d0
        (.ok 429 ⟨"success", some e0, "Modo cambiado"⟩)).display = d0
    ∧ d0 ≠ actualizarUI e0 := by
  exact ⟨rfl, by decide⟩

/-- Claim C4 as amended: for the plain dispatch, a response with HTTP
status other than 429 updates the displayed state exactly when the body's
status is `success` (and then the display equals the server-returned state
via `actualizarUI`); a non-`success` body shows the message as an `info`
or `error` notice and leaves the display unchanged; a 429 response leaves
the display unchanged even when its body status is `success`. -/
theorem C4_estado_enmendado (modo t : String) (d : Display) (st : Nat)
    (body : ModoBody) (hst : st ≠ 429) :
    (∀ e : Estado, body.estado = some e → body.status = "success" →
        (enviarComando modo t d (.ok st body)).display = actualizarUI e)
    ∧ (body.status ≠ "success" →
        (enviarComando modo t d (.ok st body)).display = d
        ∧ (enviarComando modo t d (.ok st body)).notif
            = some ⟨body.msg,
                if body.status = "info" then "info" else "error"⟩)
    ∧ (enviarComando modo t d (.ok 429 body)).display = d := by
  refine ⟨?_, ?_, rfl⟩
  · intro e he hs
    simp [enviarComando, hst, hs, he]
  · intro hs
    by_cases hi : body.status = "info" <;>
      simp [enviarComando, hst, hs, hi]

/-- Claim C4 amended, witnessed at HTTP 200 with a `success` body carrying
the CINE state, and at a 429 carrying the same body. -/
theorem C4_estado_enmendado_witness :
    (200 ≠ 429)
    ∧ ((∀ e : Estado,
          (⟨"success", some e0, "Modo cambiado"⟩ : ModoBody).estado = some e →
          (⟨"success", some e0, "Modo cambiado"⟩ : ModoBody).status
            = "success" →
          (enviarComando "CINE" "boton" d0
              (.ok 200 ⟨"success", some e0, "Modo cambiado"⟩)).display
            = actualizarUI e)
      ∧ ((⟨"success", some e0, "Modo cambiado"⟩ : ModoBody).status
            ≠ "success" →
          (enviarComando "CINE" "boton" d0
              (.ok 200 ⟨"success", some e0, "Modo cambiado"⟩)).display = d0
          ∧ (enviarComando "CINE" "boton" d0
              (.ok 200 ⟨"success", some e0, "Modo cambiado"⟩)).notif
            = some ⟨"Modo cambiado",
                if (⟨"success", some e0, "Modo cambiado"⟩ : ModoBody).status
                    = "info" then "info" else "error"⟩)
      ∧ (enviarComando "CINE" "boton" d0
          (.ok 429 ⟨"success", some e0, "Modo cambiado"⟩)).display = d0) :=
  ⟨by decide,
    C4_estado_enmendado "CINE" "boton" d0 200
      ⟨"success", some e0, "Modo cambiado"⟩ (by decide)⟩

/-- Claim C6: a successful state fetch renders the server state exactly —
mode, CPU and latency are displayed verbatim — and the status indicator
class is the off-style for mode OFF, the standby-style for STANDBY, and
the on-style for any other mode. -/
theorem C6_estado_inicial (d : Display) (st : Nat) (e : Estado)
    (hok : resOk st = true) :
    cargarEstadoActual d (.ok st ⟨"success", some e⟩) = (actualizarUI e, none)
    ∧ (actualizarUI e).modo = e.modo_actual
    ∧ (actualizarUI e).cpu = e.carga_cpu
    ∧ (actualizarUI e).latencia = e.latencia
    ∧ (e.modo_actual = "OFF" →
        (actualizarUI e).kpiClass = "kpi status-off")
    ∧ (e.modo_actual = "STANDBY" →
        (actualizarUI e).kpiClass = "kpi status-standby")
    ∧ (e.modo_actual ≠ "OFF" → e.modo_actual ≠ "STANDBY" →
        (actualizarUI e).kpiClass = "kpi status-on") := by
  refine ⟨?_, rfl, rfl, rfl, ?_, ?_, ?_⟩
  · simp [cargarEstadoActual, hok]
  · intro h; simp [actualizarUI, claseKpi, h]
  · intro h; simp [actualizarUI, claseKpi, h]
  · intro h h2; simp [actualizarUI, claseKpi, h, h2]

/-- Claim C6, witnessed at the spec's scenario: HTTP 200 with body
`{status: success, estado: {modo_actual: CINE, carga_cpu: 88,
latencia: 24}}` renders mode CINE, CPU 88, latency 24 and the on-style
indicator class. -/
theorem C6_estado_inicial_witness :
    resOk 200 = true
    ∧ cargarEstadoActual d0 (.ok 200 ⟨"success", some ⟨"CINE", 88, 24⟩⟩)
        = (⟨"CINE", 88, 24, "kpi status-on"⟩, none) :=
  ⟨by decide,
    (C6_estado_inicial d0 200 ⟨"CINE", 88, 24⟩ (by decide)).1.trans
      (by decide)⟩

/-- Claim C7: a successful log refresh renders exactly one row per
returned entry in the order the server sent them, resets the scroll
position to the top, and styles an entry with a missing level as INFO. -/
theorem C7_logs_orden (caja : LogBox) (st : Nat) (body : LogsBody)
    (hok : resOk st = true) (hs : body.status = "success") :
    (cargarLogs caja (.ok st body)).rows = body.logs.map renderLogRow
    ∧ (cargarLogs caja (.ok st body)).scrollTop = 0
    ∧ (∀ log : LogEntry, log.nivel = none →
        (renderLogRow log).clase = "log-row INFO") := by
  refine ⟨?_, ?_, ?_⟩
  · simp [cargarLogs, hok, hs]
  · simp [cargarLogs, hok, hs]
  · intro log h
    simp [renderLogRow, nivelEfectivo, h]

/-- Claim C7, witnessed on the spec's two-entry list: the rendered rows
keep the order t1 then t2, the first (level-less) entry is styled INFO,
and the scroll position is 0 even though it was 5 before. -/
theorem C7_logs_orden_witness :
    resOk 200 = true
    ∧ (⟨"success", [⟨"t1", none, "u1", "e1", "x1"⟩,
          ⟨"t2", some "WARN", "u2", "e2", "x2"⟩]⟩ : LogsBody).status
        = "success"
    ∧ cargarLogs ⟨[], 5⟩
        (.ok 200 ⟨"success", [⟨"t1", none, "u1", "e1", "x1"⟩,
          ⟨"t2", some "WARN", "u2", "e2", "x2"⟩]⟩)
        = ⟨[⟨"log-row INFO", "[t1] [INFO] u1: e1 - x1"⟩,
            ⟨"log-row WARN", "[t2] [WARN] u2: e2 - x2"⟩], 0⟩ := by
  refine ⟨by decide, by decide, ?_⟩
  have h := C7_logs_orden ⟨[], 5⟩ 200
    ⟨"success", [⟨"t1", none, "u1", "e1", "x1"⟩,
      ⟨"t2", some "WARN", "u2", "e2", "x2"⟩]⟩ (by decide) (by decide)
  have hrows := h.1
  have hscroll := h.2.1
  cases hbox : cargarLogs ⟨[], 5⟩
      (.ok 200 ⟨"success", [⟨"t1", none, "u1", "e1", "x1"⟩,
        ⟨"t2", some "WARN", "u2", "e2", "x2"⟩]⟩) with
  | mk rows top =>
      rw [hbox] at hrows hscroll
      simp only at hrows hscroll
      rw [hrows, hscroll]
      decide

/-- Claim C9: a log refresh that fails — network error, non-2xx status, or
a body whose status is not `success` — leaves the previously rendered list
and scroll position completely unchanged; the box is cleared and rebuilt
only on a success response. -/
theorem C9_logs_fallo_sin_cambio (caja : LogBox) (st : Nat)
    (body : LogsBody) (h : resOk st = false ∨ body.status ≠ "success") :
    cargarLogs caja .fail = caja
    ∧ cargarLogs caja (.ok st body) = caja
    ∧ (∀ (st2 : Nat) (body2 : LogsBody), resOk st2 = true →
        body2.status = "success" →
        cargarLogs caja (.ok st2 body2)
          = ⟨body2.logs.map renderLogRow, 0⟩) := by
  refine ⟨rfl, ?_, ?_⟩
  · cases h with
    | inl hbad => simp [cargarLogs, hbad]
    | inr hbad =>
        by_cases hok : resOk st = true
        · simp [cargarLogs, hok, hbad]
        · simp only [Bool.not_eq_true] at hok
          simp [cargarLogs, hok]
  · intro st2 body2 hok hs
    simp [cargarLogs, hok, hs]

/-- Claim C9, witnessed at an HTTP 500 response with an error body over a
one-row box: the box is left exactly as it was. -/
theorem C9_logs_fallo_sin_cambio_witness :
    (resOk 500 = false ∨ (⟨"error", []⟩ : LogsBody).status ≠ "success")
    ∧ cargarLogs ⟨[⟨"log-row INFO", "fila"⟩], 3⟩ .fail
        = ⟨[⟨"log-row INFO", "fila"⟩], 3⟩
    ∧ cargarLogs ⟨[⟨"log-row INFO", "fila"⟩], 3⟩ (.ok 500 ⟨"error", []⟩)
        = ⟨[⟨"log-row INFO", "fila"⟩], 3⟩ :=
  ⟨Or.inl (by decide),
    (C9_logs_fallo_sin_cambio ⟨[⟨"log-row INFO", "fila"⟩], 3⟩ 500
      ⟨"error", []⟩ (Or.inl (by decide))).1,
    (C9_logs_fallo_sin_cambio ⟨[⟨"log-row INFO", "fila"⟩], 3⟩ 500
      ⟨"error", []⟩ (Or.inl (by decide))).2.1⟩

/-- Claim C10: `mostrarNotificacion` removes the existing notification
element before appending the new one, so from any state with at most one
notification the call leaves exactly the new one, and along any sequence
of calls starting from an empty document at most one notification element
ever exists. -/
theorem C10_notificacion_unica (m t : String) (notifs : List Notif)
    (h : notifs.length ≤ 1) :
    mostrarNotificacion m t notifs = [⟨m, t⟩]
    ∧ (∀ calls : List (String × String),
        (calls.foldl (fun acc p => mostrarNotificacion p.1 p.2 acc)
          []).length ≤ 1) :=
  ⟨mostrarNotificacion_singleton m t notifs h,
    fun calls => mostrarNotificacion_fold_inv calls [] (by simp)⟩

/-- Claim C10, witnessed on a document already holding one notification:
the call replaces it with the new one. -/
theorem C10_notificacion_unica_witness :
    ([(⟨"previa", "info"⟩ : Notif)].length ≤ 1)
    ∧ mostrarNotificacion "nueva" "error" [⟨"previa", "info"⟩]
        = [⟨"nueva", "error"⟩] :=
  ⟨by decide,
    (C10_notificacion_unica "nueva" "error" [⟨"previa", "info"⟩]
      (by decide)).1⟩

end Auditorio
